import Mathlib

/-!
Verification model of the llmix session/queue engine, local OAuth2
authorization flow, and Spotify catalog operations.

Each definition is a shallow embedding of the corresponding Python function
from the repository. Conventions:
* Python `int` is modelled as `Int` (or `Nat` where the source can only ever
  produce a non-negative value), `set` as `Finset`, `dict` keyed by UUID as an
  association list with unique keys, and UUIDs / wall-clock timestamps as
  opaque `Nat` values.
* Remote HTTP services (the Spotify Web API and the OAuth token endpoint) are
  modelled as pure oracles passed in as explicit arguments; the embedded
  functions additionally return the list of outbound requests they issue so
  that the wire behaviour is observable.
* A Python function that may raise an uncaught exception is modelled with an
  `Option` result, `none` standing for the raised exception.
-/

/-- `Artist` from `src/music/components.py`. -/
structure Artist where
  artist_id : String
  name : String
  genres : List String
  image_url : Option String
  deriving Repr, DecidableEq

/-- `Album` from `src/music/components.py`. The Python dataclass also has a
`tracks : List[Track]` field, mutually referential with `Track.album`; every
construction site in the repository passes `tracks=[]`
(`spotify_provider.py`, `_create_album`) and no code reads it, so the field is
omitted here to break the (never exercised) cycle. -/
structure Album where
  album_id : String
  title : String
  artist : Artist
  release_date : Nat
  album_type : String
  total_tracks : Nat
  image_url : Option String
  genres : List String
  deriving Repr, DecidableEq

/-- `Track` from `src/music/components.py`. Note the dataclass declares NO
`uri` field, although `spotify_provider.py` line 155 passes a `uri=` keyword
to the constructor and `session_manager.py` line 172 reads `new_track.uri` —
both of which therefore raise. -/
structure Track where
  track_id : String
  title : String
  artist : Artist
  duration_ms : Nat
  album : Option Album
  explicit : Bool
  preview_url : Option String
  external_url : Option String
  popularity : Option Nat
  is_playable : Bool
  deriving Repr, DecidableEq

/-- `UserToken` from `src/music/components.py`: website, access token,
refresh token and expiry (`datetime` as opaque `Nat`). It declares NO `info`
attribute, and no code in the repository ever attaches one, although
`session_manager.py` line 165 and `spotify_provider.py` line 232 read
`.info` — both of which therefore raise `AttributeError`. -/
structure UserToken where
  website : String
  access_token : String
  refresh_token : String
  token_expiry : Nat
  deriving Repr, DecidableEq

/-- `User` from `src/music/components.py`. `user_id : UUID` is modelled as an
opaque `Nat`; `connections : Dict[str, UserToken]` as an association list;
the `permissions`, `created_at` and `last_active` fields are never read by
the functions verified here and are omitted. -/
structure User where
  user_id : Nat
  username : String
  email : String
  hashed_password : String
  is_active : Bool
  connections : List (String × UserToken) := []
  deriving Repr, DecidableEq

/-- `PlaybackState` from `src/music/components.py`. -/
structure PlaybackState where
  is_playing : Bool := false
  position_ms : Nat := 0
  volume_percent : Nat := 50
  repeat_mode : String := "off"
  shuffle_mode : Bool := false
  deriving Repr, DecidableEq

/-- `QueueItem` from `src/music/components.py`: a track request plus its voter
set and integer position. `votes : Set[UUID]` becomes `Finset Nat`;
`requested_at : datetime` becomes an opaque `Nat`. -/
structure QueueItem where
  track : Track
  requested_by : User
  requested_at : Nat := 0
  votes : Finset Nat := ∅
  position : Int := 0
  deriving DecidableEq

/-- A Spotify playlist object as the code observes it: `session_manager.py`
and `spotify_provider.py` only ever read the `"id"` and `"name"` keys of the
playlist dicts returned by the API. -/
structure SpotifyPlaylist where
  id : String
  name : String
  deriving Repr, DecidableEq

/-- `Session` from `src/session/session_manager.py`: a music listening
session. `invited_users : Set[User]` is modelled as a list (no claim depends
on it); `playlist : Dict[str, Any]` is modelled by the keys the code reads. -/
structure Session where
  session_id : Nat
  name : String
  initiator : User
  invited_users : List User
  queue : List QueueItem
  playback_state : PlaybackState
  playlist : SpotifyPlaylist
  created_at : Nat := 0
  theme_keywords : List String := []
  deriving DecidableEq

/-- `Session.vote_track` (`session_manager.py` lines 38-47): if
`0 <= queue_position < len(self.queue)`, add `user_id` to (upvote) or discard
it from (downvote) the voter set of the item at `queue_position` and return
`True`; otherwise return `False`. The returned pair is (Python return value,
session after the call). -/
def Session.vote_track (s : Session) (user_id : Nat) (queue_position : Int)
    (upvote : Bool := true) : Bool × Session :=
  if h : 0 ≤ queue_position ∧ queue_position < (s.queue.length : Int) then
    have hi : queue_position.toNat < s.queue.length := by omega
    let queue_item := s.queue.get ⟨queue_position.toNat, hi⟩
    let updated :=
      if upvote then { queue_item with votes := insert user_id queue_item.votes }
      else { queue_item with votes := queue_item.votes.erase user_id }
    (true, { s with queue := s.queue.set queue_position.toNat updated })
  else
    (false, s)

/-- The state of `SessionManager` (`session_manager.py`): the
`sessions : Dict[UUID, Session]` registry, modelled as an association list
with unique keys. The `config`, `user_manager`, `music_provider`,
`music_bridge` and `assistant` fields only feed the external LLM and Spotify
calls and carry no session state, so they are omitted. -/
structure SessionManager where
  sessions : List (Nat × Session)
  deriving DecidableEq

/-- `SessionManager.get_session`: `self.sessions.get(session_id)`. -/
def SessionManager.get_session (sm : SessionManager) (session_id : Nat) :
    Option Session :=
  (sm.sessions.find? (fun e => e.1 == session_id)).map (fun e => e.2)

/-- In Python the `Session` object held by the dict is mutated in place; here
the in-place mutation of the session stored under `session_id` is modelled by
replacing the value at that key. -/
def SessionManager.set_session (sm : SessionManager) (session_id : Nat)
    (s : Session) : SessionManager :=
  ⟨sm.sessions.map (fun e => if e.1 == session_id then (e.1, s) else e)⟩

/-- Python `user.connections[key]`: `some` the token when the key is
present, `none` for the raised `KeyError` when it is absent. -/
def lookup_connection (connections : List (String × UserToken)) (key : String) :
    Option UserToken :=
  (connections.find? (fun e => e.1 == key)).map (fun e => e.2)

/-- One track summary inside the queue context built by
`SessionManager._get_queue_context`. -/
structure TrackContext where
  title : String
  artist : String
  genres : List String
  popularity : Option Nat
  deriving Repr, DecidableEq

/-- The dict returned by `SessionManager._get_queue_context`
(`session_manager.py` lines 143-158): per item a track summary paired with
`len(item.votes)`, plus the session's theme keywords. -/
structure QueueContext where
  current_queue : List (TrackContext × Nat)
  theme_keywords : List String
  deriving Repr, DecidableEq

/-- `SessionManager._get_queue_context` (`session_manager.py` lines
143-158). All fields it reads exist on the dataclasses, so it is total. -/
def _get_queue_context (session : Session) : QueueContext :=
  { current_queue := session.queue.map (fun item =>
      ({ title := item.track.title, artist := item.track.artist.name
         genres := item.track.artist.genres
         popularity := item.track.popularity }, item.votes.card))
    theme_keywords := session.theme_keywords }

/-- `SessionManager._evaluate_track_placement` (`session_manager.py` lines
160-178). The prompt f-string evaluates its interpolations eagerly, in
order: `session.playlist["id"]` (present in the model), then
`user.connections['spotify']` (a `KeyError` when absent), then `.info['id']`
— `UserToken` declares no `info` attribute and the repository never attaches
one, so this raises `AttributeError` unconditionally, before `new_track.uri`
(which would raise too: `Track` has no `uri` field) and before the LLM is
ever consulted. The call can therefore never return normally: both match
arms produce `none`, the raised exception. -/
def _evaluate_track_placement (_queue_context : QueueContext)
    (_new_track : Track) (session : Session) (user : User) : Option String :=
  let _playlist_id := session.playlist.id
  match lookup_connection user.connections "spotify" with
  | none => none
  | some _token => none

/-- `SessionManager.add_track_request` (`session_manager.py` lines 101-119):
returns `False` when the session is missing; otherwise builds a `QueueItem`
with `position = len(session.queue)` and `votes = {requested_by.user_id}`,
computes the queue context, calls `_evaluate_track_placement` — which always
raises (see its doc) — and only then would append the item and fall off the
end (Python `None`). The result is `none` for an uncaught exception, and
otherwise `some` of (Python return value, registry after the call), the
return value being `some false` for `False` or `none` for `None`. -/
def SessionManager.add_track_request (sm : SessionManager) (session_id : Nat)
    (track : Track) (requested_by : User) :
    Option (Option Bool × SessionManager) :=
  match sm.get_session session_id with
  | none => some (some false, sm)
  | some session =>
    let queue_item : QueueItem :=
      { track := track
        requested_by := requested_by
        votes := insert requested_by.user_id (∅ : Finset Nat)
        position := (session.queue.length : Int) }
    let queue_context := _get_queue_context session
    match _evaluate_track_placement queue_context track session requested_by with
    | none => none
    | some _response =>
      some (none, sm.set_session session_id
        { session with queue := session.queue ++ [queue_item] })

/-- `SessionManager._update_queue_positions` body:
`for i, item in enumerate(session.queue): item.position = i`,
unrolled as a recursion carrying the running index. -/
def update_positions_from (n : Nat) : List QueueItem → List QueueItem
  | [] => []
  | item :: rest => { item with position := (n : Int) } :: update_positions_from (n + 1) rest

/-- `SessionManager._update_queue_positions` (`session_manager.py` 185-188). -/
def _update_queue_positions (session : Session) : Session :=
  { session with queue := update_positions_from 0 session.queue }

/-- Python `list.pop(i)` semantics: a negative index wraps around by the list
length; an index out of `[-len, len)` raises `IndexError`, modelled as
`none`. -/
def py_pop (l : List α) (i : Int) : Option (List α) :=
  let j := if i < 0 then i + l.length else i
  if 0 ≤ j ∧ j < (l.length : Int) then some (l.eraseIdx j.toNat) else none

/-- `SessionManager.remove_track` (`session_manager.py` lines 190-198):
returns `False` when the session is missing or `position >= len(queue)`;
otherwise `session.queue.pop(position)` (Python semantics, including negative
wraparound and `IndexError` for `position < -len`, the latter modelled as
`none`), then renumbers positions and returns `True`. -/
def SessionManager.remove_track (sm : SessionManager) (session_id : Nat)
    (position : Int) : Option (Bool × SessionManager) :=
  match sm.get_session session_id with
  | none => some (false, sm)
  | some session =>
    if (session.queue.length : Int) ≤ position then some (false, sm)
    else
      match py_pop session.queue position with
      | none => none
      | some q =>
        some (true, sm.set_session session_id
          (_update_queue_positions { session with queue := q }))

/-- `SessionManager.get_queue` (`session_manager.py` lines 200-203). -/
def SessionManager.get_queue (sm : SessionManager) (session_id : Nat) :
    List QueueItem :=
  match sm.get_session session_id with
  | some session => session.queue
  | none => []

/-- The central queue invariant: item positions are exactly `0..n-1` in list
order (hence contiguous, no gaps, no duplicates). -/
def positionsContiguous (q : List QueueItem) : Prop :=
  ∀ i (h : i < q.length), (q.get ⟨i, h⟩).position = (i : Int)

/-- The index Python `list.pop(i)` actually removes for an in-range `i`:
negative indices wrap around by the list length. -/
def py_index (pos : Int) (n : Nat) : Nat :=
  (if pos < 0 then pos + n else pos).toNat

/-! Concrete sample values used by the witnesses and counterexamples. -/

def artist0 : Artist :=
  { artist_id := "ar0", name := "Artist Zero", genres := ["rock"], image_url := none }

def track0 : Track :=
  { track_id := "t0", title := "Song Zero", artist := artist0, duration_ms := 1000
    album := none, explicit := false, preview_url := none
    external_url := none, popularity := some 10, is_playable := true }

def user0 : User :=
  { user_id := 7, username := "alice", email := "a@example.com"
    hashed_password := "h0", is_active := true }

def user1 : User :=
  { user_id := 8, username := "bob", email := "b@example.com"
    hashed_password := "h1", is_active := true }

def playlist0 : SpotifyPlaylist := { id := "p0", name := "Session Zero" }

def session0 : Session :=
  { session_id := 0, name := "s0", initiator := user0, invited_users := []
    queue := [], playback_state := {}, playlist := playlist0 }

def sm0 : SessionManager := ⟨[(0, session0)]⟩

def qi0 : QueueItem :=
  { track := track0, requested_by := user0, votes := {7}, position := 0 }

def qi1 : QueueItem :=
  { track := track0, requested_by := user1, votes := {8}, position := 1 }

def session2 : Session := { session0 with queue := [qi0, qi1] }

def sm2 : SessionManager := ⟨[(0, session2)]⟩

/-- The form body POSTed to the token endpoint by the OAuth callback handler
(`oauth2_server.py` lines 52-58): exactly these five fields. -/
structure TokenRequest where
  grant_type : String
  code : String
  redirect_uri : String
  client_id : String
  client_secret : String
  deriving Repr, DecidableEq

/-- A response of the token endpoint as the handler observes it: the HTTP
status code and the parsed JSON body (`r.json()`), kept abstract as `β`. -/
structure TokenResponse (β : Type) where
  status_code : Nat
  json : β
  deriving DecidableEq

/-- The part of `OAuth2Server` state that `do_GET` reads or writes
(`oauth2_server.py` lines 30-36), with the parsed token JSON abstract as
`β`. -/
structure OAuthState (β : Type) where
  client_id : String
  client_secret : String
  redirect_uri : String
  token_url : String
  auth_tokens : Option β
  deriving DecidableEq

/-- Everything one `do_GET` call produces: the HTTP status and body written
to the browser, the server state after the call, whether `server.shutdown`
was signalled, and the outbound token-endpoint POSTs issued during the
call. -/
structure GetResult (β : Type) where
  response_status : Nat
  response_body : String
  state : OAuthState β
  shutdown : Bool
  posts : List TokenRequest
  deriving DecidableEq

/-- `query_params.get("code", [None])[0]` over the parsed query dict: the
first value recorded for the key, or `none` when the key is absent. -/
def lookup_query (query : List (String × String)) (key : String) :
    Option String :=
  (query.find? (fun e => e.1 == key)).map (fun e => e.2)

/-- The exact `token_data` dict built by the handler
(`oauth2_server.py` lines 52-58). -/
def exchange_request (st : OAuthState β) (code : String) : TokenRequest :=
  { grant_type := "authorization_code", code := code
    redirect_uri := st.redirect_uri, client_id := st.client_id
    client_secret := st.client_secret }

/-- `OAuth2Server._OAuthHandler.do_GET` (`oauth2_server.py` lines 44-80).
The incoming request is given as its parsed path and query —
`urllib.parse.urlparse`/`parse_qs` are Python stdlib, modelled as already
applied (`parse_qs` drops blank values, so a present `code` key always
carries a non-empty first value). `requests.post` against the token endpoint
is the oracle `post`; the Python truthiness test `if code:` is mirrored by
also sending the no-code response when the value is the empty string. -/
def do_GET (post : TokenRequest → TokenResponse β) (st : OAuthState β)
    (path : String) (query : List (String × String)) : GetResult β :=
  if path = "/callback" then
    match lookup_query query "code" with
    | some code =>
      if code = "" then
        { response_status := 400, response_body := "No code parameter found."
          state := st, shutdown := false, posts := [] }
      else
        let token_data := exchange_request st code
        let r := post token_data
        if r.status_code = 200 then
          { response_status := 200
            response_body := "Authentication successful! You can close this window."
            state := { st with auth_tokens := some r.json }
            shutdown := true, posts := [token_data] }
        else
          { response_status := 400, response_body := "Token request failed."
            state := st, shutdown := false, posts := [token_data] }
    | none =>
      { response_status := 400, response_body := "No code parameter found."
        state := st, shutdown := false, posts := [] }
  else
    { response_status := 200, response_body := "OAuth2 authentication running."
      state := st, shutdown := false, posts := [] }

/-- A concrete OAuth state for the witnesses. -/
def st0 : OAuthState Nat :=
  { client_id := "cid", client_secret := "sec"
    redirect_uri := "http://localhost:8888/callback"
    token_url := "https://accounts.spotify.com/api/token", auth_tokens := none }

/-- A concrete token-endpoint oracle that accepts every exchange. -/
def post200 : TokenRequest → TokenResponse Nat := fun _ => ⟨200, 42⟩

/-- A concrete token-endpoint oracle that rejects every exchange. -/
def post500 : TokenRequest → TokenResponse Nat := fun _ => ⟨500, 0⟩

/-- `SpotifyProvider.add_tracks_to_playlist` (`spotify_provider.py` lines
241-247): `for i in range(0, len(track_uris), 100)` POSTs the slice
`track_uris[i:i+100]` per iteration. `range(0, n, 100)` enumerates `100*k`
for `k < (n + 99) / 100`, and the slice is `(track_uris.drop i).take 100`;
the function returns the chunk carried by each POST, in call order. -/
def add_tracks_to_playlist (track_uris : List String) : List (List String) :=
  (List.range ((track_uris.length + 99) / 100)).map
    (fun k => (track_uris.drop (100 * k)).take 100)

/-- 250 concrete track URIs. -/
def uris250 : List String := List.replicate 250 "spotify:track:u"

/-- A raw artist JSON object as `_create_artist` reads it
(`spotify_provider.py` lines 122-129): `["id"]`, `["name"]`,
`.get("genres", [])`, `.get("images", [{}])[0].get("url")` — modelled
post-parse with the accessed keys present. -/
structure RawArtist where
  id : String
  name : String
  genres : List String := []
  image_url : Option String := none
  deriving Repr, DecidableEq

/-- A raw album JSON object as `_create_album` reads it
(`spotify_provider.py` lines 131-142). -/
structure RawAlbum where
  id : String
  name : String
  album_type : String
  total_tracks : Nat
  image_url : Option String := none
  deriving Repr, DecidableEq

/-- A raw track JSON object as `_create_track` reads it
(`spotify_provider.py` lines 144-162), modelled post-parse with the accessed
keys present. -/
structure RawTrack where
  id : String
  name : String
  artists : List RawArtist
  album : RawAlbum
  duration_ms : Nat
  uri : String
  explicit : Bool := false
  preview_url : Option String := none
  external_url : String := ""
  popularity : Nat := 0
  is_local : Bool := false
  deriving Repr, DecidableEq

/-- `SpotifyProvider._create_artist` (`spotify_provider.py` 122-129). -/
def _create_artist (artist_data : RawArtist) : Artist :=
  { artist_id := artist_data.id, name := artist_data.name
    genres := artist_data.genres, image_url := artist_data.image_url }

/-- `SpotifyProvider._create_album` (`spotify_provider.py` 131-142):
`release_date` is hard-coded to `datetime.now()` in the source (opaque `0`
here) and `tracks=[]` always (see the `Album` model note). -/
def _create_album (album_data : RawAlbum) (artist : Artist) : Album :=
  { album_id := album_data.id, title := album_data.name, artist := artist
    release_date := 0, album_type := album_data.album_type
    total_tracks := album_data.total_tracks
    image_url := album_data.image_url, genres := [] }

/-- `SpotifyProvider._create_track` (`spotify_provider.py` 144-162): builds
the artist from `track_data["artists"][0]` (an `IndexError` when that list
is empty) and the album, then invokes the `Track` dataclass constructor
passing `uri=track_data["uri"]`; the `Track` dataclass in `components.py`
declares no `uri` field, so the constructor call raises `TypeError`
unconditionally — the function can never return a `Track`, which is why
both arms below end in `none`. -/
def _create_track (track_data : RawTrack) : Option Track :=
  match track_data.artists with
  | [] => none
  | artist_data :: _ =>
    let artist := _create_artist artist_data
    let _album := _create_album track_data.album artist
    none

/-- One entry of `songs["tracks"]["items"]` as `set_playlist` reads it: the
code only accesses `i["track"]`. -/
structure PlaylistItem where
  track : RawTrack
  deriving Repr, DecidableEq

/-- The network responses of the Spotify Web API, as a pure oracle:
`user_playlists` is the items list answered to `GET /me/playlists`, and
`playlist_items` is `response["tracks"]["items"]` answered to
`GET /playlists/{id}`. Only the wire responses are abstracted; the
repository's own code around them is modelled explicitly below. -/
structure SpotifyApi where
  user_playlists : User → List SpotifyPlaylist
  playlist_items : User → String → List PlaylistItem

/-- `SpotifyProvider.get_user_playlists` (`spotify_provider.py` 220-223):
the `_require_user_connection` decorator raises `ValueError` when the user
has no 'spotify' connection; otherwise the remote response items are
returned. -/
def get_user_playlists (api : SpotifyApi) (user : User) :
    Option (List SpotifyPlaylist) :=
  match lookup_connection user.connections "spotify" with
  | none => none
  | some _token => some (api.user_playlists user)

/-- `SpotifyProvider.get_user_playlist` (`spotify_provider.py` 225-228),
decorated like `get_user_playlists`. -/
def get_user_playlist (api : SpotifyApi) (user : User) (track_id : String) :
    Option (List PlaylistItem) :=
  match lookup_connection user.connections "spotify" with
  | none => none
  | some _token => some (api.playlist_items user track_id)

/-- `SpotifyProvider.create_playlist` (`spotify_provider.py` 230-239): after
the decorator's connection check, line 232 evaluates
`user.connections['spotify'].info['id']`; `UserToken` declares no `info`
attribute, so this raises `AttributeError` unconditionally, before the POST
is ever issued — the function can never return a playlist, which is why both
arms below end in `none`. -/
def create_playlist (user : User) (_name _description : String) :
    Option SpotifyPlaylist :=
  match lookup_connection user.connections "spotify" with
  | none => none
  | some _token => none

/-- `SessionManager.set_playlist` (`session_manager.py` lines 122-141): list
the user's playlists; for each whose name equals the target (the loop has no
`break`), fetch its items and hydrate each through `_create_track`,
remembering the playlist as `playlist_target`; afterwards return the
remembered playlist with the accumulated tracks, or `create_playlist` when
none matched. An exception (`none`) propagates out of the loop at the first
raising call, as in Python. -/
def set_playlist (api : SpotifyApi) (user : User) (target_playlist : String) :
    Option (SpotifyPlaylist × List Track) := do
  let result ← get_user_playlists api user
  let st ← result.foldl
    (fun (acc : Option (Option SpotifyPlaylist × List Track)) playlist => do
      let acc' ← acc
      if playlist.name = target_playlist then do
        let songs ← get_user_playlist api user playlist.id
        let hydrated ← songs.mapM (fun i => _create_track i.track)
        pure (some playlist, acc'.2 ++ hydrated)
      else pure acc')
    (some ((none : Option SpotifyPlaylist), ([] : List Track)))
  match st.1 with
  | some playlist_target => pure (playlist_target, st.2)
  | none => Option.map (fun r => (r, st.2)) (create_playlist user target_playlist "Session")

/-- A Spotify `UserToken` for the samples. -/
def tok0 : UserToken :=
  { website := "spotify", access_token := "at", refresh_token := "rt"
    token_expiry := 0 }

/-- A user holding a 'spotify' connection. -/
def user_c : User :=
  { user_id := 9, username := "carol", email := "c@example.com"
    hashed_password := "h2", is_active := true
    connections := [("spotify", tok0)] }

/-- A raw track entry with every key the hydration path reads. -/
def raw_track1 : RawTrack :=
  { id := "t1", name := "Song One"
    artists := [{ id := "ar1", name := "Artist One" }]
    album := { id := "al1", name := "Album One", album_type := "album"
               total_tracks := 1 }
    duration_ms := 1000, uri := "spotify:track:t1" }

/-- Two remote playlists named "X", each holding one track entry. -/
def api_ex : SpotifyApi :=
  { user_playlists := fun _ => [⟨"a", "X"⟩, ⟨"b", "X"⟩]
    playlist_items := fun _ _pid => [⟨raw_track1⟩] }

/-- A user with no remote playlists at all (exercises the creation
branch). -/
def api_nomatch : SpotifyApi :=
  { user_playlists := fun _ => [], playlist_items := fun _ _pid => [] }

theorem List.set_get_id (l : List α) (i : Nat) (h : i < l.length) :
    l.set i (l.get ⟨i, h⟩) = l := by
  induction l generalizing i with
  | nil => simp at h
  | cons x xs ih =>
    cases i with
    | zero => simp
    | succ n => simpa using ih n (by simpa using h)

theorem find_map_update (l : List (Nat × Session)) (sid : Nat) (s' : Session)
    (h : (l.find? (fun e => e.1 == sid)).isSome) :
    (l.map (fun e => if e.1 == sid then (e.1, s') else e)).find?
      (fun e => e.1 == sid) = some (sid, s') := by
  induction l with
  | nil => simp [List.find?] at h
  | cons x xs ih =>
    simp only [List.map_cons]
    by_cases hx : x.1 = sid
    · subst hx
      simp [List.find?]
    · have hxb : ¬ ((fun e : Nat × Session => e.1 == sid) x) = true := by
        simpa using hx
      have hxb' : ¬ ((fun e : Nat × Session => e.1 == sid)
          (if x.1 == sid then (x.1, s') else x)) = true := by
        simp [hx]
      rw [@List.find?_cons_of_neg _ (fun e => e.1 == sid) x xs hxb] at h
      rw [@List.find?_cons_of_neg _ (fun e => e.1 == sid)
        (if x.1 == sid then (x.1, s') else x)
        (xs.map (fun e => if e.1 == sid then (e.1, s') else e)) hxb']
      exact ih h

theorem get_session_set_session (sm : SessionManager) (sid : Nat)
    (s s' : Session) (h : sm.get_session sid = some s) :
    (sm.set_session sid s').get_session sid = some s' := by
  have hfind : (sm.sessions.find? (fun e => e.1 == sid)).isSome := by
    unfold SessionManager.get_session at h
    cases hf : sm.sessions.find? (fun e => e.1 == sid) with
    | none => rw [hf] at h; simp at h
    | some e => simp [hf]
  unfold SessionManager.get_session SessionManager.set_session
  rw [find_map_update _ _ _ hfind]
  rfl

theorem length_update_positions_from (n : Nat) (l : List QueueItem) :
    (update_positions_from n l).length = l.length := by
  induction l generalizing n with
  | nil => rfl
  | cons x xs ih => simp [update_positions_from, ih]

theorem update_positions_from_position (n : Nat) (l : List QueueItem) (i : Nat)
    (h : i < (update_positions_from n l).length) :
    ((update_positions_from n l).get ⟨i, h⟩).position = ((n + i : Nat) : Int) := by
  induction l generalizing n i with
  | nil => simp [update_positions_from] at h
  | cons x xs ih =>
    cases i with
    | zero => simp [update_positions_from]
    | succ m =>
      have hm : m < (update_positions_from (n + 1) xs).length := by
        simpa [update_positions_from] using h
      have := ih (n + 1) m hm
      simp only [update_positions_from, List.get_cons_succ]
      rw [this]
      congr 1
      omega

theorem positionsContiguous_update (l : List QueueItem) :
    positionsContiguous (update_positions_from 0 l) := by
  intro i h
  simpa using update_positions_from_position 0 l i h

theorem py_pop_eq_some (l : List α) (pos : Int) (h1 : -(l.length : Int) ≤ pos)
    (h2 : pos < (l.length : Int)) :
    py_pop l pos = some (l.eraseIdx (py_index pos l.length)) := by
  by_cases hneg : pos < 0 <;>
    simp only [py_pop, py_index, hneg, if_true, if_false, ite_true, ite_false] <;>
    rw [if_pos (by constructor <;> omega)]

theorem py_pop_eq_none (l : List α) (pos : Int) (h : pos < -(l.length : Int)) :
    py_pop l pos = none := by
  have hneg : pos < 0 := by omega
  simp only [py_pop, hneg, ite_true]
  rw [if_neg]
  omega

/-- C1 (code bug): `add_track_request` can never extend a queue. With the
session absent it returns `False`; with the session present, the prompt
construction inside `_evaluate_track_placement` raises unconditionally (a
`KeyError` when the user has no 'spotify' connection, otherwise an
`AttributeError` on the nonexistent `UserToken.info`) before
`session.queue.append` at `session_manager.py` line 119 — so the enqueue
operation whose appends the claim's position invariant quantifies over never
happens in the program. -/
theorem claim_C1_enqueue_never_appends (sm : SessionManager)
    (session_id : Nat) (track : Track) (requested_by : User) :
    sm.add_track_request session_id track requested_by =
      match sm.get_session session_id with
      | none => some (some false, sm)
      | some _ => none := by
  cases hget : sm.get_session session_id with
  | none => simp [SessionManager.add_track_request, hget]
  | some s =>
    simp only [SessionManager.add_track_request, hget, _evaluate_track_placement]
    cases lookup_connection requested_by.connections "spotify" <;> rfl

/-- C2 counterexample: on a two-item queue, `remove_track` at the negative
position `-1` returns `True` and removes an item, where the claim requires it
to report `OutOfRange` (return `False`) for every negative position. -/
theorem claim_C2_counterexample :
    (sm2.remove_track 0 (-1)).map Prod.fst = some true ∧
    (sm2.remove_track 0 (-1)).map (fun r => (r.2.get_queue 0).length) = some 1 := by
  constructor <;> rfl

/-- C2 (amended): with a session present, `remove_track` returns `False`
exactly when `position ≥ len`; for `-len ≤ position < len` it removes the item
at the Python-normalized index (so negative positions down to `-len` succeed
with wraparound instead of failing), renumbers the queue to contiguous
positions `0..n-1` and returns `True` — removing the last remaining item
yields an empty queue and is a success; for `position < -len` the underlying
`list.pop` raises `IndexError` instead of returning `False`. -/
theorem claim_C2_remove_track_amended (sm : SessionManager) (sid : Nat)
    (s : Session) (pos : Int) (hs : sm.get_session sid = some s) :
    ((s.queue.length : Int) ≤ pos → sm.remove_track sid pos = some (false, sm)) ∧
    (pos < -(s.queue.length : Int) → sm.remove_track sid pos = none) ∧
    (-(s.queue.length : Int) ≤ pos → pos < (s.queue.length : Int) →
      sm.remove_track sid pos = some (true, sm.set_session sid
        (_update_queue_positions
          { s with queue := s.queue.eraseIdx (py_index pos s.queue.length) })) ∧
      positionsContiguous ((sm.set_session sid
        (_update_queue_positions
          { s with queue := s.queue.eraseIdx (py_index pos s.queue.length) })).get_queue sid)) := by
  refine ⟨fun hp => ?_, fun hp => ?_, fun hp1 hp2 => ⟨?_, ?_⟩⟩
  · simp only [SessionManager.remove_track, hs, if_pos hp]
  · simp only [SessionManager.remove_track, hs,
      if_neg (by omega : ¬ (s.queue.length : Int) ≤ pos),
      py_pop_eq_none s.queue pos hp]
  · simp only [SessionManager.remove_track, hs, if_neg (by omega : ¬ (s.queue.length : Int) ≤ pos),
      py_pop_eq_some s.queue pos hp1 hp2]
  · unfold SessionManager.get_queue
    rw [get_session_set_session sm sid s _ hs]
    exact positionsContiguous_update _

/-- Witness for C2 (amended) at a concrete registry, exercising the
`position ≥ len` branch at position 5 on a two-item queue. -/
theorem claim_C2_witness : sm2.remove_track 0 5 = some (false, sm2) :=
  (claim_C2_remove_track_amended sm2 0 session2 5 rfl).1 (by decide)

/-- C9: when the session identifier is absent from the registry, the public
operations fail gracefully rather than raising: `add_track_request` returns
`False` (the missing-session branch runs before any of the broken placement
code), `remove_track` returns `False`, `get_queue` returns the empty list,
and the registry state is unchanged by all three calls. -/
theorem claim_C9_missing_session (sm : SessionManager) (sid : Nat)
    (track : Track) (requested_by : User) (pos : Int)
    (h : sm.get_session sid = none) :
    sm.add_track_request sid track requested_by = some (some false, sm) ∧
    sm.remove_track sid pos = some (false, sm) ∧
    sm.get_queue sid = [] := by
  refine ⟨?_, ?_, ?_⟩ <;>
    simp only [SessionManager.add_track_request, SessionManager.remove_track,
      SessionManager.get_queue, h]

/-- Witness for C9: session identifier 99 is absent from `sm0`. -/
theorem claim_C9_witness :
    sm0.add_track_request 99 track0 user1 = some (some false, sm0) ∧
    sm0.remove_track 99 0 = some (false, sm0) ∧
    sm0.get_queue 99 = [] :=
  claim_C9_missing_session sm0 99 track0 user1 0 rfl

/-- C7: `vote_track` returns `False` exactly when the position is not a valid
queue index (negative, or at least the queue length); on every valid position
it returns `True`, and a boolean return is its only outcome — the function
has no exception path. -/
theorem claim_C7_vote_out_of_range (s : Session) (user_id : Nat)
    (queue_position : Int) (upvote : Bool) :
    (s.vote_track user_id queue_position upvote).1 = false ↔
      ¬ (0 ≤ queue_position ∧ queue_position < (s.queue.length : Int)) := by
  unfold Session.vote_track
  by_cases h : 0 ≤ queue_position ∧ queue_position < (s.queue.length : Int)
  · rw [dif_pos h]
    simpa using h
  · rw [dif_neg h]
    simpa using h

/-- C6: voting is idempotent — upvoting twice at a valid position leaves the
same state and return value as upvoting once, and a downvote by a user absent
from the vote set returns `True` and leaves the session unchanged. -/
theorem claim_C6_vote_idempotent (s : Session) (u : Nat) (p : Int)
    (h0 : 0 ≤ p) (hlt : p.toNat < s.queue.length) :
    (s.vote_track u p true).2.vote_track u p true = s.vote_track u p true ∧
    (u ∉ (s.queue.get ⟨p.toNat, hlt⟩).votes →
      s.vote_track u p false = (true, s)) := by
  have hv : 0 ≤ p ∧ p < (s.queue.length : Int) := ⟨h0, by omega⟩
  constructor
  · unfold Session.vote_track
    rw [dif_pos hv]
    dsimp only
    rw [dif_pos (by simpa using hv)]
    simp [List.get_set_eq (show p.toNat < (s.queue.set p.toNat
        { s.queue.get ⟨p.toNat, hlt⟩ with
          votes := insert u (s.queue.get ⟨p.toNat, hlt⟩).votes }).length by
        simpa using hlt),
      Finset.insert_idem, List.set_set]
  · intro hu
    unfold Session.vote_track
    rw [dif_pos hv]
    dsimp only
    rw [if_neg (by simp), Finset.erase_eq_of_not_mem hu]
    show (true, { s with
      queue := s.queue.set p.toNat (s.queue.get ⟨p.toNat, hlt⟩) }) = (true, s)
    rw [List.set_get_id s.queue p.toNat hlt]

/-- Witness for C6 on a concrete two-item queue, with user 9 absent from the
vote set of the item at position 0. -/
theorem claim_C6_witness :
    ((session2.vote_track 9 0 true).2.vote_track 9 0 true =
      session2.vote_track 9 0 true) ∧
    session2.vote_track 9 0 false = (true, session2) :=
  ⟨(claim_C6_vote_idempotent session2 9 0 (by decide) (by decide)).1,
   (claim_C6_vote_idempotent session2 9 0 (by decide) (by decide)).2 (by decide)⟩

/-- C10: for a valid position, `vote_track` touches only the vote set of the
item at that position — the queue length, all other items, the non-vote
fields of the voted item, and every other field of the session are
unchanged. -/
theorem claim_C10_vote_frame (s : Session) (u : Nat) (p : Int) (upvote : Bool)
    (h0 : 0 ≤ p) (hlt : p.toNat < s.queue.length) :
    ((s.vote_track u p upvote).2.queue.length = s.queue.length) ∧
    (∀ j, j ≠ p.toNat →
      (s.vote_track u p upvote).2.queue[j]? = s.queue[j]?) ∧
    ((s.vote_track u p upvote).2.queue[p.toNat]?.map QueueItem.track
      = s.queue[p.toNat]?.map QueueItem.track) ∧
    ((s.vote_track u p upvote).2.queue[p.toNat]?.map QueueItem.requested_by
      = s.queue[p.toNat]?.map QueueItem.requested_by) ∧
    ((s.vote_track u p upvote).2.queue[p.toNat]?.map QueueItem.requested_at
      = s.queue[p.toNat]?.map QueueItem.requested_at) ∧
    ((s.vote_track u p upvote).2.queue[p.toNat]?.map QueueItem.position
      = s.queue[p.toNat]?.map QueueItem.position) ∧
    ((s.vote_track u p upvote).2.session_id = s.session_id) ∧
    ((s.vote_track u p upvote).2.name = s.name) ∧
    ((s.vote_track u p upvote).2.initiator = s.initiator) ∧
    ((s.vote_track u p upvote).2.invited_users = s.invited_users) ∧
    ((s.vote_track u p upvote).2.playback_state = s.playback_state) ∧
    ((s.vote_track u p upvote).2.playlist = s.playlist) ∧
    ((s.vote_track u p upvote).2.created_at = s.created_at) ∧
    ((s.vote_track u p upvote).2.theme_keywords = s.theme_keywords) := by
  have hv : 0 ≤ p ∧ p < (s.queue.length : Int) := ⟨h0, by omega⟩
  unfold Session.vote_track
  rw [dif_pos hv]
  dsimp only
  refine ⟨by simp, fun j hj => List.getElem?_set_ne (fun he => hj he.symm), ?_, ?_, ?_, ?_,
    rfl, rfl, rfl, rfl, rfl, rfl, rfl, rfl⟩ <;>
    rw [List.getElem?_set_eq_of_lt _ hlt, List.getElem?_eq_getElem hlt] <;>
    cases upvote <;> rfl

/-- Witness for C10 at a concrete session, user and position. -/
theorem claim_C10_witness :
    ((session2.vote_track 9 1 true).2.queue.length = session2.queue.length) ∧
    (∀ j, j ≠ (1 : Int).toNat →
      (session2.vote_track 9 1 true).2.queue[j]? = session2.queue[j]?) ∧
    ((session2.vote_track 9 1 true).2.queue[(1 : Int).toNat]?.map QueueItem.track
      = session2.queue[(1 : Int).toNat]?.map QueueItem.track) ∧
    ((session2.vote_track 9 1 true).2.queue[(1 : Int).toNat]?.map QueueItem.requested_by
      = session2.queue[(1 : Int).toNat]?.map QueueItem.requested_by) ∧
    ((session2.vote_track 9 1 true).2.queue[(1 : Int).toNat]?.map QueueItem.requested_at
      = session2.queue[(1 : Int).toNat]?.map QueueItem.requested_at) ∧
    ((session2.vote_track 9 1 true).2.queue[(1 : Int).toNat]?.map QueueItem.position
      = session2.queue[(1 : Int).toNat]?.map QueueItem.position) ∧
    ((session2.vote_track 9 1 true).2.session_id = session2.session_id) ∧
    ((session2.vote_track 9 1 true).2.name = session2.name) ∧
    ((session2.vote_track 9 1 true).2.initiator = session2.initiator) ∧
    ((session2.vote_track 9 1 true).2.invited_users = session2.invited_users) ∧
    ((session2.vote_track 9 1 true).2.playback_state = session2.playback_state) ∧
    ((session2.vote_track 9 1 true).2.playlist = session2.playlist) ∧
    ((session2.vote_track 9 1 true).2.created_at = session2.created_at) ∧
    ((session2.vote_track 9 1 true).2.theme_keywords = session2.theme_keywords) :=
  claim_C10_vote_frame session2 9 1 true (by decide) (by decide)

/-- C4: on a `/callback` request carrying a (non-blank, as `parse_qs`
guarantees) `code` parameter, the handler synchronously POSTs to the token
endpoint exactly one form body made of `grant_type=authorization_code`, the
received code, the redirect URI, the client id and the client secret; if and
only if that POST is answered with HTTP 200 does it store the parsed token
response, answer 200 to the browser and signal server shutdown — on any
other status it stores nothing, answers 400 and does not shut down. -/
theorem claim_C4_oauth_code_exchange {β : Type}
    (post : TokenRequest → TokenResponse β) (st : OAuthState β)
    (query : List (String × String)) (code : String)
    (hq : lookup_query query "code" = some code) (hne : code ≠ "") :
    (do_GET post st "/callback" query).posts = [exchange_request st code] ∧
    ((post (exchange_request st code)).status_code = 200 →
      (do_GET post st "/callback" query).state =
        { st with auth_tokens := some (post (exchange_request st code)).json } ∧
      (do_GET post st "/callback" query).response_status = 200 ∧
      (do_GET post st "/callback" query).shutdown = true) ∧
    ((post (exchange_request st code)).status_code ≠ 200 →
      (do_GET post st "/callback" query).state = st ∧
      (do_GET post st "/callback" query).response_status = 400 ∧
      (do_GET post st "/callback" query).shutdown = false) := by
  unfold do_GET
  rw [if_pos rfl, hq]
  by_cases hr : (post (exchange_request st code)).status_code = 200
  · simp [hne, hr]
  · simp [hne, hr]

/-- Witness for C4: a successful exchange at a concrete request. -/
theorem claim_C4_witness :
    (do_GET post200 st0 "/callback" [("code", "abc")]).state.auth_tokens = some 42 ∧
    (do_GET post200 st0 "/callback" [("code", "abc")]).shutdown = true ∧
    (do_GET post200 st0 "/callback" [("code", "abc")]).posts =
      [exchange_request st0 "abc"] := by
  obtain ⟨h1, h2, h3⟩ :=
    claim_C4_oauth_code_exchange post200 st0 [("code", "abc")] "abc" rfl (by decide)
  have h2' := h2 rfl
  refine ⟨?_, h2'.2.2, h1⟩
  rw [h2'.1]
  rfl

/-- C8: a `/callback` request with no `code` parameter is answered 400
without shutdown, outbound call or state change; a request for any other
path is answered 200 with the static status message and causes no state
transition at all. -/
theorem claim_C8_oauth_no_code_and_other_paths {β : Type}
    (post : TokenRequest → TokenResponse β) (st : OAuthState β)
    (path : String) (query : List (String × String)) :
    (lookup_query query "code" = none →
      do_GET post st "/callback" query =
        { response_status := 400, response_body := "No code parameter found."
          state := st, shutdown := false, posts := [] }) ∧
    (path ≠ "/callback" →
      do_GET post st path query =
        { response_status := 200
          response_body := "OAuth2 authentication running."
          state := st, shutdown := false, posts := [] }) := by
  constructor
  · intro hq
    unfold do_GET
    rw [if_pos rfl, hq]
  · intro hp
    unfold do_GET
    rw [if_neg hp]

/-- Witness for C8 at concrete requests: a callback with only a `state`
parameter, and a request for the root path. -/
theorem claim_C8_witness :
    do_GET post500 st0 "/callback" [("state", "xyz")] =
      { response_status := 400, response_body := "No code parameter found."
        state := st0, shutdown := false, posts := [] } ∧
    do_GET post500 st0 "/" [] =
      { response_status := 200, response_body := "OAuth2 authentication running."
        state := st0, shutdown := false, posts := [] } :=
  ⟨(claim_C8_oauth_no_code_and_other_paths post500 st0 "/" [("state", "xyz")]).1 rfl,
   (claim_C8_oauth_no_code_and_other_paths post500 st0 "/" []).2 (by decide)⟩

theorem add_tracks_to_playlist_cons (l : List String) (h : l ≠ []) :
    add_tracks_to_playlist l =
      l.take 100 :: add_tracks_to_playlist (l.drop 100) := by
  unfold add_tracks_to_playlist
  have hn : 0 < l.length := List.length_pos.mpr h
  have hstep : (l.length + 99) / 100 = ((l.drop 100).length + 99) / 100 + 1 := by
    rw [List.length_drop]
    omega
  rw [hstep, List.range_succ_eq_map, List.map_cons, List.map_map]
  simp only [Nat.mul_zero, List.drop_zero]
  congr 1
  apply List.map_congr_left
  intro k _
  simp only [Function.comp_apply, List.drop_drop]
  congr 2
  omega

/-- C5: `add_tracks_to_playlist` splits the track identifier list into
consecutive chunks of at most 100 identifiers (their concatenation in call
order is exactly the input), issuing one remote add call per chunk; for an
input of 250 identifiers it issues exactly 3 calls with chunk sizes
100, 100, 50 in that order. -/
theorem claim_C5_chunked_add (track_uris : List String) :
    (add_tracks_to_playlist track_uris).join = track_uris ∧
    (∀ c ∈ add_tracks_to_playlist track_uris, c.length ≤ 100) ∧
    (track_uris.length = 250 →
      (add_tracks_to_playlist track_uris).map List.length = [100, 100, 50]) := by
  refine ⟨?_, ?_, ?_⟩
  · have main : ∀ n (l : List String), l.length ≤ n →
        (add_tracks_to_playlist l).join = l := by
      intro n
      induction n with
      | zero =>
        intro l hl
        have hnil : l = [] := by
          cases l with
          | nil => rfl
          | cons a as => simp at hl
        subst hnil
        rfl
      | succ n ih =>
        intro l hl
        by_cases h : l = []
        · subst h
          rfl
        · rw [add_tracks_to_playlist_cons l h]
          have hlen : (l.drop 100).length ≤ n := by
            rw [List.length_drop]
            have : 0 < l.length := List.length_pos.mpr h
            omega
          show l.take 100 ++ (add_tracks_to_playlist (l.drop 100)).join = l
          rw [ih (l.drop 100) hlen]
          exact List.take_append_drop 100 l
    exact main track_uris.length track_uris le_rfl
  · intro c hc
    simp only [add_tracks_to_playlist, List.mem_map] at hc
    obtain ⟨k, _, rfl⟩ := hc
    rw [List.length_take]
    exact inf_le_left
  · intro hlen
    simp only [add_tracks_to_playlist, hlen]
    rw [show (250 + 99) / 100 = 3 from rfl, show List.range 3 = [0, 1, 2] from rfl]
    simp [List.length_take, List.length_drop, hlen]

set_option maxRecDepth 4000 in
/-- Witness for C5 at 250 concrete URIs. -/
theorem claim_C5_witness :
    (add_tracks_to_playlist uris250).join = uris250 ∧
    (add_tracks_to_playlist uris250).map List.length = [100, 100, 50] :=
  ⟨(claim_C5_chunked_add uris250).1,
   (claim_C5_chunked_add uris250).2.2 (by simp [uris250])⟩

/-- C3 (code bug): evaluated with a connected user against two remote
playlists named "X" each holding one track entry, `set_playlist` raises
(`TypeError` inside the first `_create_track` call — the `uri=` keyword has
no corresponding `Track` field) instead of returning a matched playlist with
hydrated tracks; and with no remote playlist matching, it raises
(`AttributeError` on the nonexistent `UserToken.info` inside
`create_playlist`) instead of creating and returning a new playlist. -/
theorem claim_C3_set_playlist_crashes :
    set_playlist api_ex user_c "X" = none ∧
    set_playlist api_nomatch user_c "X" = none := by
  constructor <;> rfl
